import Mathlib

/-!
Shallow embedding of the password-reset token store of
`users/redis_utils.py` and the reset views of `users/views.py`
(Iduate/User-Authentication-System), together with theorems checking the
specification's claims about the token lifecycle.

Modelling conventions:
* A cache tier (Redis, or Django's cache) is an association list from
  keys to `(value, expiry-time)` pairs; absolute times are `Nat`s and a
  `get` at time `now` hits iff `now < expiry` (a key written with a
  600-second TTL at time `t` is readable exactly while `now < t + 600`).
* Exceptions raised by individual store calls are modelled by explicit
  Boolean flags, one per store call site (`redisSetRaises`,
  `cacheGetRaises`, ...): the flag `true` means that call raises and the
  embedded function follows the `except` path of the Python code.
* `redis_client` is `None` exactly when `redis_available` is `False` in
  the module import block, so the Python guard
  `if redis_available and redis_client` is a single Boolean here.
* The freshly generated `secrets.token_urlsafe(32)` string is passed in
  as a parameter `token`; its randomness is outside the embedding.
-/

namespace UserAuth

/-- One cache tier: entries `(key, value, expiresAt)`. -/
abbrev Store := List (String × String × Nat)

/-- Raw lookup of a key in a tier (first matching entry). -/
def storeFind (s : Store) (key : String) : Option (String × Nat) :=
  match s with
  | [] => none
  | (k, v, e) :: rest => if k = key then some (v, e) else storeFind rest key

/-- `get` at absolute time `now`: a hit iff the entry exists and has not
expired (Redis `GET` / Django `cache.get`). -/
def storeGet (s : Store) (key : String) (now : Nat) : Option String :=
  match storeFind s key with
  | some (v, e) => if now < e then some v else none
  | none => none

/-- `delete` of a key (Redis `DEL` / Django `cache.delete`). -/
def storeDelete (s : Store) (key : String) : Store :=
  match s with
  | [] => []
  | (k, v, e) :: rest =>
    if k = key then storeDelete rest key else (k, v, e) :: storeDelete rest key

/-- `set` with TTL: Redis `SETEX key ttl value` at time `now` stores
`(value, now + ttl)`, replacing any previous entry; Django
`cache.set(key, value, timeout=ttl)` behaves the same way. -/
def storeSet (s : Store) (key v : String) (expiresAt : Nat) : Store :=
  (key, v, expiresAt) :: storeDelete s key

/-- Whether a tier currently holds an entry for `key` (expired or not). -/
def storeHasKey (s : Store) (key : String) : Bool :=
  (storeFind s key).isSome

/-- The two shared mutable tiers: the primary Redis client's keyspace and
the secondary Django cache. -/
structure SysState where
  redis : Store
  cache : Store
  deriving DecidableEq

/-- `redis_utils.py` lines 10–17: the module import block connects once and
fixes `redis_available` for the life of the process (`True` unless the
connection attempt raises `ConnectionError`). -/
def initRedisAvailable (connectionRaises : Bool) : Bool :=
  !connectionRaises

/-- The key under which a reset token is stored:
`f"password_reset:{token}"`. -/
def resetKey (token : String) : String :=
  "password_reset:" ++ token

/-- `redis_utils.generate_password_reset_token(user_id)`.
The generated token is the parameter `token`; returns the Python return
value paired with the resulting store state.  `redisSetRaises` /
`cacheSetRaises` model the two `except` branches. -/
def generate_password_reset_token (redis_available : Bool) (st : SysState)
    (user_id token : String) (now : Nat)
    (redisSetRaises cacheSetRaises : Bool) : String × SysState :=
  let key := resetKey token
  let redisPart : Bool × SysState :=
    if redis_available then
      if redisSetRaises then (false, st)
      else (true, { st with redis := storeSet st.redis key user_id (now + 600) })
    else (false, st)
  let st2 :=
    if redisPart.1 then redisPart.2
    else if cacheSetRaises then redisPart.2
    else { redisPart.2 with cache := storeSet redisPart.2.cache key user_id (now + 600) }
  (token, st2)

/-- The Django-cache fallback block of
`redis_utils.validate_password_reset_token` (`cache.get`, truthiness
check, `cache.delete`, early return; a raised exception is caught and the
function returns `None`). -/
def cacheTier (st : SysState) (key : String) (now : Nat)
    (cacheGetRaises cacheDeleteRaises : Bool) : Option String × SysState :=
  if cacheGetRaises then (none, st)
  else
    match storeGet st.cache key now with
    | some v =>
      if v = "" then (none, st)
      else if cacheDeleteRaises then (none, st)
      else (some v, { st with cache := storeDelete st.cache key })
    | none => (none, st)

/-- `redis_utils.validate_password_reset_token(token)`: Redis tier first
(`get`, truthiness of the bytes, `delete`, early return; any exception is
caught and control continues to the cache fallback), then the Django
cache tier. -/
def validate_password_reset_token (redis_available : Bool) (st : SysState)
    (token : String) (now : Nat)
    (redisGetRaises redisDeleteRaises cacheGetRaises cacheDeleteRaises : Bool) :
    Option String × SysState :=
  let key := resetKey token
  if redis_available then
    if redisGetRaises then cacheTier st key now cacheGetRaises cacheDeleteRaises
    else
      match storeGet st.redis key now with
      | some v =>
        if v = "" then cacheTier st key now cacheGetRaises cacheDeleteRaises
        else if redisDeleteRaises then cacheTier st key now cacheGetRaises cacheDeleteRaises
        else (some v, { st with redis := storeDelete st.redis key })
      | none => cacheTier st key now cacheGetRaises cacheDeleteRaises
  else cacheTier st key now cacheGetRaises cacheDeleteRaises

/-- An HTTP response body as the reset views build it: either a JSON
object with a `detail` key and an optional `token` key, or a DRF
serializer-errors object (field name to message). -/
inductive Body where
  | detailMsg (detail : String) (token : Option String)
  | fieldErrors (errs : List (String × String))
  deriving DecidableEq

/-- An HTTP response: status code plus body. -/
structure Resp where
  status : Nat
  body : Body
  deriving DecidableEq

/-- The value of the `detail` key of a response, when present. -/
def Resp.detailField (r : Resp) : Option String :=
  match r.body with
  | .detailMsg d _ => some d
  | .fieldErrors _ => none

/-- The value of the `token` key of a response, when present. -/
def Resp.tokenField (r : Resp) : Option String :=
  match r.body with
  | .detailMsg _ t => t
  | .fieldErrors _ => none

/-- The generic rejection body of `PasswordResetConfirmView.post` for a
token that redeems to nothing usable. -/
def invalidTokenResp : Resp :=
  { status := 400
    body := .detailMsg "Invalid or expired token. Please request a new password reset." none }

/-- `views.PasswordResetRequestView.post`.  `emailValid` is the
`PasswordResetRequestSerializer` outcome, `userExists` the outcome of
`User.objects.get(email=email)`, `user_id` that user's id and `token` the
fresh random token.  `generate_password_reset_token` is total in the
embedding, so the `except`-wrapped 500 branch around it is unreachable
and does not appear. -/
def passwordResetRequestPost (redis_available : Bool) (st : SysState)
    (emailValid userExists : Bool) (user_id token : String) (now : Nat)
    (redisSetRaises cacheSetRaises : Bool) : Resp × SysState :=
  if emailValid then
    if userExists then
      let r := generate_password_reset_token redis_available st user_id token now
        redisSetRaises cacheSetRaises
      ({ status := 200
         body := .detailMsg "Password reset token generated successfully." (some r.1) }, r.2)
    else
      ({ status := 200
         body := .detailMsg "If the email exists in our system, a password reset link will be sent." none },
       st)
  else
    ({ status := 400, body := .fieldErrors [("email", "Enter a valid email address.")] }, st)

/-- `serializers.PasswordResetConfirmSerializer.validate`: the data is
valid iff the two password fields agree; otherwise a `ValidationError`
keyed by `new_password_confirm` is raised. -/
def passwordResetConfirmSerializerValid (new_password new_password_confirm : String) : Bool :=
  new_password == new_password_confirm

/-- `views.PasswordResetConfirmView.post`.  `userExistsById` is the
outcome of `User.objects.get(id=user_id)`; the final Boolean of the
result records whether `validate_password_reset_token` was called (it is
called exactly in the serializer-valid branch of the code). -/
def passwordResetConfirmPost (redis_available : Bool) (st : SysState)
    (token new_password new_password_confirm : String) (now : Nat)
    (redisGetRaises redisDeleteRaises cacheGetRaises cacheDeleteRaises : Bool)
    (userExistsById : String → Bool) : Resp × SysState × Bool :=
  if passwordResetConfirmSerializerValid new_password new_password_confirm then
    let r := validate_password_reset_token redis_available st token now
      redisGetRaises redisDeleteRaises cacheGetRaises cacheDeleteRaises
    match r.1 with
    | some user_id =>
      if user_id ≠ "" then
        if userExistsById user_id then
          ({ status := 200
             body := .detailMsg "Password reset successful. You can now log in with your new password." none },
           r.2, true)
        else (invalidTokenResp, r.2, true)
      else (invalidTokenResp, r.2, true)
    | none => (invalidTokenResp, r.2, true)
  else
    ({ status := 400
       body := .fieldErrors [("new_password_confirm", "Passwords do not match")] }, st, false)

/-!
Interleaving model for concurrent `validate_password_reset_token` calls
(`redis_available = True`, no store call raises).  Each Redis / cache
command issued by the function body is one atomic micro-step; local
control flow between two commands is folded into the following step.
-/

/-- Program counter of one in-flight `validate_password_reset_token`
call: not started; Redis `GET` returned (value after TTL filtering);
cache `get` returned; or the call returned `res`.  The `delete` a tier
issues after a usable hit is folded into the transition out of the
corresponding read state. -/
inductive RedeemPC where
  | start
  | primaryRead (res : Option String)
  | cacheRead (res : Option String)
  | finished (res : Option String)
  deriving DecidableEq

/-- One atomic micro-step of an in-flight redeem call against the shared
store state. -/
def redeemStep (key : String) (now : Nat) :
    SysState × RedeemPC → SysState × RedeemPC
  | (st, .start) => (st, .primaryRead (storeGet st.redis key now))
  | (st, .primaryRead (some v)) =>
    if v = "" then (st, .cacheRead (storeGet st.cache key now))
    else ({ st with redis := storeDelete st.redis key }, .finished (some v))
  | (st, .primaryRead none) => (st, .cacheRead (storeGet st.cache key now))
  | (st, .cacheRead (some v)) =>
    if v = "" then (st, .finished none)
    else ({ st with cache := storeDelete st.cache key }, .finished (some v))
  | (st, .cacheRead none) => (st, .finished none)
  | (st, .finished r) => (st, .finished r)

/-- Two concurrent redeem calls for the same token, driven by a schedule:
`true` steps the first call, `false` the second. -/
def run2 (key : String) (now : Nat) :
    List Bool → SysState × RedeemPC × RedeemPC → SysState × RedeemPC × RedeemPC
  | [], s => s
  | b :: rest, (st, p1, p2) =>
    if b then
      let r := redeemStep key now (st, p1)
      run2 key now rest (r.1, r.2, p2)
    else
      let r := redeemStep key now (st, p2)
      run2 key now rest (r.1, p1, r.2)

/-! Basic facts about the store primitives. -/

theorem storeFind_delete (s : Store) (key : String) :
    storeFind (storeDelete s key) key = none := by
  induction s with
  | nil => rfl
  | cons hd tl ih =>
    obtain ⟨k, v, e⟩ := hd
    by_cases h : k = key <;> simp [storeDelete, storeFind, h, ih]

theorem storeGet_delete (s : Store) (key : String) (now : Nat) :
    storeGet (storeDelete s key) key now = none := by
  simp [storeGet, storeFind_delete]

theorem storeFind_set (s : Store) (key v : String) (e : Nat) :
    storeFind (storeSet s key v e) key = some (v, e) := by
  simp [storeSet, storeFind]

theorem storeGet_set (s : Store) (key v : String) (e now : Nat) :
    storeGet (storeSet s key v e) key now = if now < e then some v else none := by
  simp [storeGet, storeFind_set]

theorem storeGet_of_not_hasKey (s : Store) (key : String) (now : Nat)
    (h : storeHasKey s key = false) : storeGet s key now = none := by
  unfold storeHasKey at h
  unfold storeGet
  cases hf : storeFind s key with
  | none => rfl
  | some p => rw [hf] at h; simp at h

/-- Fidelity of the micro-step model: running one redeem call alone to
completion (three steps always suffice; `finished` is absorbing) computes
exactly `validate_password_reset_token` with no raised store calls. -/
theorem redeemStep_run_eq_validate (st : SysState) (token : String) (now : Nat) :
    redeemStep (resetKey token) now (redeemStep (resetKey token) now
      (redeemStep (resetKey token) now (st, .start))) =
      ((validate_password_reset_token true st token now false false false false).2,
       .finished (validate_password_reset_token true st token now false false false false).1) := by
  simp only [redeemStep, validate_password_reset_token, cacheTier]
  cases hr : storeGet st.redis (resetKey token) now with
  | none =>
    simp only [redeemStep]
    cases hc : storeGet st.cache (resetKey token) now with
    | none => simp [redeemStep]
    | some v =>
      by_cases hv : v = "" <;> simp [redeemStep, hv]
  | some v =>
    by_cases hv : v = ""
    · subst hv
      simp only [if_pos rfl, redeemStep]
      cases hc : storeGet st.cache (resetKey token) now with
      | none => simp [redeemStep]
      | some w =>
        by_cases hw : w = "" <;> simp [redeemStep, hw]
    · simp [redeemStep, hv]

/-- C1: a token returned by `generate_password_reset_token` for a fresh
key, under healthy stores, redeems exactly once: the first
`validate_password_reset_token` call (within the 600-second TTL) returns
the subject id it was issued for, and any later call on the same token
returns none — the serving tier's copy was deleted. -/
theorem c1_at_most_once_redemption (redis_available : Bool) (st : SysState)
    (user_id token : String) (t1 t2 t3 : Nat)
    (hu : user_id ≠ "")
    (hfr : storeHasKey st.redis (resetKey token) = false)
    (hfc : storeHasKey st.cache (resetKey token) = false)
    (h12 : t1 ≤ t2) (h2 : t2 < t1 + 600) :
    (generate_password_reset_token redis_available st user_id token t1 false false).1
      = token ∧
    (validate_password_reset_token redis_available
      (generate_password_reset_token redis_available st user_id token t1 false false).2
      token t2 false false false false).1 = some user_id ∧
    (validate_password_reset_token redis_available
      (validate_password_reset_token redis_available
        (generate_password_reset_token redis_available st user_id token t1 false false).2
        token t2 false false false false).2
      token t3 false false false false).1 = none := by
  refine ⟨rfl, ?_, ?_⟩ <;>
    cases redis_available <;>
      simp [generate_password_reset_token, validate_password_reset_token, cacheTier,
        storeGet_set, storeGet_delete, h2, hu,
        storeGet_of_not_hasKey _ _ _ hfr, storeGet_of_not_hasKey _ _ _ hfc]

/-- Witness for C1 at a concrete issue/redeem/redeem run. -/
theorem c1_at_most_once_redemption_witness :
    (generate_password_reset_token true ⟨[], []⟩ "7" "tok" 0 false false).1 = "tok" ∧
    (validate_password_reset_token true
      (generate_password_reset_token true ⟨[], []⟩ "7" "tok" 0 false false).2
      "tok" 1 false false false false).1 = some "7" ∧
    (validate_password_reset_token true
      (validate_password_reset_token true
        (generate_password_reset_token true ⟨[], []⟩ "7" "tok" 0 false false).2
        "tok" 1 false false false false).2
      "tok" 5000 false false false false).1 = none :=
  c1_at_most_once_redemption true ⟨[], []⟩ "7" "tok" 0 1 5000
    (by decide) (by decide) (by decide) (by decide) (by decide)

/-- C2, counterexample: the claim says the existing-email and
missing-email reset-request responses carry an identical `detail` value;
in the code the two `detail` strings differ (the status codes are both
200 and only the `token` key is additionally present for an existing
email). -/
theorem c2_counterexample :
    (passwordResetRequestPost true ⟨[], []⟩ true true "7" "tok" 0 false false).1.status =
      (passwordResetRequestPost true ⟨[], []⟩ true false "7" "tok" 0 false false).1.status ∧
    (passwordResetRequestPost true ⟨[], []⟩ true true "7" "tok" 0 false false).1.detailField ≠
      (passwordResetRequestPost true ⟨[], []⟩ true false "7" "tok" 0 false false).1.detailField := by
  constructor
  · rfl
  · intro h
    simp [passwordResetRequestPost, Resp.detailField] at h

/-- C2, amended: for every pair of reset requests with a valid email,
one for an existing and one for a missing user, both responses have
status 200 and carry a `detail` key, but the `detail` strings differ
(success message vs. generic acknowledgment); the `token` key is present
exactly in the existing-email response. -/
theorem c2_amended_response_shape (redis_available : Bool) (st : SysState)
    (user_id token : String) (now : Nat) (redisSetRaises cacheSetRaises : Bool) :
    (passwordResetRequestPost redis_available st true true user_id token now
        redisSetRaises cacheSetRaises).1.status = 200 ∧
    (passwordResetRequestPost redis_available st true false user_id token now
        redisSetRaises cacheSetRaises).1.status = 200 ∧
    (passwordResetRequestPost redis_available st true true user_id token now
        redisSetRaises cacheSetRaises).1.detailField =
      some "Password reset token generated successfully." ∧
    (passwordResetRequestPost redis_available st true false user_id token now
        redisSetRaises cacheSetRaises).1.detailField =
      some "If the email exists in our system, a password reset link will be sent." ∧
    (passwordResetRequestPost redis_available st true true user_id token now
        redisSetRaises cacheSetRaises).1.tokenField = some token ∧
    (passwordResetRequestPost redis_available st true false user_id token now
        redisSetRaises cacheSetRaises).1.tokenField = none := by
  refine ⟨rfl, rfl, rfl, rfl, ?_, rfl⟩
  simp [passwordResetRequestPost, Resp.tokenField, generate_password_reset_token]

/-- C3: redeem consults the primary tier first and short-circuits on a
usable hit (deleting only the primary copy); on a primary miss, on
`redis_available = false`, or on a primary read that raises, the
secondary tier is consulted, a hit there is deleted and returned, and a
miss in both tiers yields none with the state unchanged. -/
theorem c3_redeem_tier_order (st : SysState) (token : String) (now : Nat) :
    (∀ v, storeGet st.redis (resetKey token) now = some v → v ≠ "" →
      validate_password_reset_token true st token now false false false false =
        (some v, { st with redis := storeDelete st.redis (resetKey token) })) ∧
    (∀ redis_available v,
      (redis_available = false ∨ storeGet st.redis (resetKey token) now = none) →
      storeGet st.cache (resetKey token) now = some v → v ≠ "" →
      validate_password_reset_token redis_available st token now false false false false =
        (some v, { st with cache := storeDelete st.cache (resetKey token) })) ∧
    (∀ redis_available,
      (redis_available = false ∨ storeGet st.redis (resetKey token) now = none) →
      storeGet st.cache (resetKey token) now = none →
      validate_password_reset_token redis_available st token now false false false false =
        (none, st)) ∧
    (∀ cacheGetRaises cacheDeleteRaises,
      validate_password_reset_token true st token now true false cacheGetRaises cacheDeleteRaises =
        cacheTier st (resetKey token) now cacheGetRaises cacheDeleteRaises) := by
  refine ⟨?_, ?_, ?_, ?_⟩
  · intro v hv hne
    simp [validate_password_reset_token, hv, hne]
  · rintro ra v (rfl | hmiss) hc hne <;>
      simp [validate_password_reset_token, cacheTier, hc, hne, *]
  · rintro ra (rfl | hmiss) hc <;>
      simp [validate_password_reset_token, cacheTier, hc, *]
  · intro cg cd
    simp [validate_password_reset_token]

/-- Witness for C3: each of the four cases applied at a concrete store
state. -/
theorem c3_redeem_tier_order_witness :
    (validate_password_reset_token true
        ⟨[(resetKey "tok", "7", 600)], [(resetKey "tok", "8", 600)]⟩ "tok" 0
        false false false false =
      (some "7", ⟨[], [(resetKey "tok", "8", 600)]⟩)) ∧
    (validate_password_reset_token false
        ⟨[], [(resetKey "tok", "8", 600)]⟩ "tok" 0 false false false false =
      (some "8", ⟨[], []⟩)) ∧
    (validate_password_reset_token true ⟨[], []⟩ "tok" 0 false false false false =
      (none, ⟨[], []⟩)) ∧
    (validate_password_reset_token true
        ⟨[(resetKey "tok", "7", 600)], [(resetKey "tok", "8", 600)]⟩ "tok" 0
        true false false false =
      cacheTier ⟨[(resetKey "tok", "7", 600)], [(resetKey "tok", "8", 600)]⟩
        (resetKey "tok") 0 false false) :=
  ⟨by
    have h := (c3_redeem_tier_order
        ⟨[(resetKey "tok", "7", 600)], [(resetKey "tok", "8", 600)]⟩ "tok" 0).1
        "7" (by decide) (by decide)
    simpa [storeDelete] using h,
   by
    have h := (c3_redeem_tier_order ⟨[], [(resetKey "tok", "8", 600)]⟩ "tok" 0).2.1
        false "8" (Or.inl rfl) (by decide) (by decide)
    simpa [storeDelete] using h,
   (c3_redeem_tier_order ⟨[], []⟩ "tok" 0).2.2.1 true (Or.inr (by decide)) (by decide),
   (c3_redeem_tier_order
        ⟨[(resetKey "tok", "7", 600)], [(resetKey "tok", "8", 600)]⟩ "tok" 0).2.2.2
      false false⟩

/-- C4: issue always hands the generated token back to the caller, for
every combination of store-write failures; when the primary write raises
it falls back to a secondary write with the same key, the same
subject-id value and the same 600-second TTL, and when both writes raise
the state is simply unchanged (the failure is never re-raised). -/
theorem c4_issue_always_returns_token (redis_available : Bool) (st : SysState)
    (user_id token : String) (now : Nat) (redisSetRaises cacheSetRaises : Bool) :
    (generate_password_reset_token redis_available st user_id token now
        redisSetRaises cacheSetRaises).1 = token ∧
    (generate_password_reset_token true st user_id token now true false).2 =
      { st with cache := storeSet st.cache (resetKey token) user_id (now + 600) } ∧
    (generate_password_reset_token true st user_id token now true true).2 = st := by
  refine ⟨rfl, ?_, rfl⟩
  simp [generate_password_reset_token]

/-- C5: a raising store call is contained inside the adapter: a primary
read or primary delete that raises makes redeem behave exactly as if the
token were absent from the primary tier (it falls through to the
secondary tier); a raising secondary read or delete yields none with the
state unchanged; a raising primary write during issue skips that tier and
falls through to the secondary write; and when every store call raises,
issue still returns the token with the state unchanged — no store
exception ever escapes either function. -/
theorem c5_store_errors_contained (st : SysState) (user_id token : String) (now : Nat) :
    (∀ redisDeleteRaises cacheGetRaises cacheDeleteRaises,
      validate_password_reset_token true st token now true redisDeleteRaises
          cacheGetRaises cacheDeleteRaises =
        cacheTier st (resetKey token) now cacheGetRaises cacheDeleteRaises) ∧
    (∀ cacheGetRaises cacheDeleteRaises,
      validate_password_reset_token true st token now false true
          cacheGetRaises cacheDeleteRaises =
        cacheTier st (resetKey token) now cacheGetRaises cacheDeleteRaises) ∧
    (∀ cacheDeleteRaises, cacheTier st (resetKey token) now true cacheDeleteRaises =
      (none, st)) ∧
    (cacheTier st (resetKey token) now false true = (none, st)) ∧
    ((generate_password_reset_token true st user_id token now true false).2.redis =
      st.redis) ∧
    (generate_password_reset_token true st user_id token now true true = (token, st)) := by
  refine ⟨?_, ?_, ?_, ?_, ?_, rfl⟩
  · intro rd cg cd
    simp [validate_password_reset_token]
  · intro cg cd
    cases hr : storeGet st.redis (resetKey token) now with
    | none => simp [validate_password_reset_token, hr]
    | some v =>
      by_cases hv : v = "" <;> simp [validate_password_reset_token, hr, hv]
  · intro cd
    simp [cacheTier]
  · cases hc : storeGet st.cache (resetKey token) now with
    | none => simp [cacheTier, hc]
    | some v =>
      by_cases hv : v = "" <;> simp [cacheTier, hc, hv]
  · simp [generate_password_reset_token]

/-- C6: every issued token is written with expiry `now + 600` seconds
into whichever tier serves the write (primary on success, secondary on
primary failure or unavailability); a token whose key is in no tier
redeems to none, and an issued token left unredeemed for more than 600
seconds redeems to none. -/
theorem c6_ttl_600 (redis_available : Bool) (st : SysState)
    (user_id token : String) (t1 t2 t3 : Nat)
    (hfr : storeHasKey st.redis (resetKey token) = false)
    (hfc : storeHasKey st.cache (resetKey token) = false)
    (hexp : t1 + 600 < t3) :
    (generate_password_reset_token true st user_id token t1 false false).2 =
      { st with redis := storeSet st.redis (resetKey token) user_id (t1 + 600) } ∧
    (generate_password_reset_token false st user_id token t1 false false).2 =
      { st with cache := storeSet st.cache (resetKey token) user_id (t1 + 600) } ∧
    (generate_password_reset_token true st user_id token t1 true false).2 =
      { st with cache := storeSet st.cache (resetKey token) user_id (t1 + 600) } ∧
    (validate_password_reset_token redis_available st token t2 false false false false =
      (none, st)) ∧
    ((validate_password_reset_token redis_available
        (generate_password_reset_token redis_available st user_id token t1 false false).2
        token t3 false false false false).1 = none) := by
  have hnot : ¬ t3 < t1 + 600 := by omega
  refine ⟨rfl, rfl, rfl, ?_, ?_⟩ <;>
    cases redis_available <;>
      simp [generate_password_reset_token, validate_password_reset_token, cacheTier,
        storeGet_set, storeGet_delete, hnot,
        storeGet_of_not_hasKey _ _ _ hfr, storeGet_of_not_hasKey _ _ _ hfc]

/-- Witness for C6 at a concrete state and time line. -/
theorem c6_ttl_600_witness :
    (generate_password_reset_token true ⟨[], []⟩ "7" "tok" 0 false false).2 =
      { redis := storeSet ([] : Store) (resetKey "tok") "7" 600, cache := [] } ∧
    (generate_password_reset_token false ⟨[], []⟩ "7" "tok" 0 false false).2 =
      { redis := [], cache := storeSet ([] : Store) (resetKey "tok") "7" 600 } ∧
    (generate_password_reset_token true ⟨[], []⟩ "7" "tok" 0 true false).2 =
      { redis := [], cache := storeSet ([] : Store) (resetKey "tok") "7" 600 } ∧
    (validate_password_reset_token true ⟨[], []⟩ "tok" 3 false false false false =
      (none, ⟨[], []⟩)) ∧
    ((validate_password_reset_token true
        (generate_password_reset_token true ⟨[], []⟩ "7" "tok" 0 false false).2
        "tok" 601 false false false false).1 = none) :=
  c6_ttl_600 true ⟨[], []⟩ "7" "tok" 0 3 601 (by decide) (by decide) (by decide)

/-- C7: a confirm request whose two password fields differ is rejected by
the serializer with a field-level 400 before any store access:
`validate_password_reset_token` is not called and the store state is
untouched. -/
theorem c7_mismatch_no_store_access (redis_available : Bool) (st : SysState)
    (token new_password new_password_confirm : String) (now : Nat)
    (redisGetRaises redisDeleteRaises cacheGetRaises cacheDeleteRaises : Bool)
    (userExistsById : String → Bool)
    (h : new_password ≠ new_password_confirm) :
    passwordResetConfirmPost redis_available st token new_password new_password_confirm
        now redisGetRaises redisDeleteRaises cacheGetRaises cacheDeleteRaises
        userExistsById =
      ({ status := 400
         body := .fieldErrors [("new_password_confirm", "Passwords do not match")] },
       st, false) := by
  simp [passwordResetConfirmPost, passwordResetConfirmSerializerValid, h]

/-- Witness for C7 at a concrete mismatched request. -/
theorem c7_mismatch_no_store_access_witness :
    passwordResetConfirmPost true ⟨[(resetKey "tok", "7", 600)], []⟩ "tok" "npw1" "npw2"
        0 false false false false (fun _ => true) =
      ({ status := 400
         body := .fieldErrors [("new_password_confirm", "Passwords do not match")] },
       ⟨[(resetKey "tok", "7", 600)], []⟩, false) :=
  c7_mismatch_no_store_access true ⟨[(resetKey "tok", "7", 600)], []⟩ "tok" "npw1" "npw2"
    0 false false false false (fun _ => true) (by decide)

/-- C8: the code's redeem is a Redis `GET` followed by a separate Redis
`DEL`, not an atomic get-and-delete; under the interleaving
get₁, get₂, del₁, del₂ two concurrent redeem calls for the same token
both finish with the subject id — the at-most-one-success property the
specification demands fails on the code. -/
theorem c8_concurrent_redeem_both_succeed :
    (run2 (resetKey "tok") 0 [true, false, true, false]
        (⟨[(resetKey "tok", "7", 600)], []⟩, .start, .start)).2.1 =
      RedeemPC.finished (some "7") ∧
    (run2 (resetKey "tok") 0 [true, false, true, false]
        (⟨[(resetKey "tok", "7", 600)], []⟩, .start, .start)).2.2 =
      RedeemPC.finished (some "7") := by
  constructor <;> rfl

/-- C9: when a redeemed token points at a subject id with no user record,
the confirm view answers with the same generic 400 `Invalid or expired
token` body as for a never-issued token; the redeem already deleted the
token from its serving tier, so a retry with the same token gets the same
generic rejection — the token is consumed although no password changed. -/
theorem c9_orphan_subject_generic_rejection (redis_available : Bool) (st : SysState)
    (token user_id new_password : String) (t1 t2 : Nat) (userExistsById : String → Bool)
    (hu : user_id ≠ "")
    (hue : userExistsById user_id = false)
    (hserve :
      (redis_available = true ∧ storeGet st.redis (resetKey token) t1 = some user_id ∧
        storeHasKey st.cache (resetKey token) = false) ∨
      (storeHasKey st.redis (resetKey token) = false ∧
        storeGet st.cache (resetKey token) t1 = some user_id)) :
    (passwordResetConfirmPost redis_available st token new_password new_password t1
        false false false false userExistsById).1 = invalidTokenResp ∧
    storeGet (passwordResetConfirmPost redis_available st token new_password new_password t1
        false false false false userExistsById).2.1.redis (resetKey token) t2 = none ∧
    storeGet (passwordResetConfirmPost redis_available st token new_password new_password t1
        false false false false userExistsById).2.1.cache (resetKey token) t2 = none ∧
    (passwordResetConfirmPost redis_available
        (passwordResetConfirmPost redis_available st token new_password new_password t1
          false false false false userExistsById).2.1
        token new_password new_password t2 false false false false userExistsById).1 =
      invalidTokenResp := by
  rcases hserve with ⟨hra, hr, hc⟩ | ⟨hr, hc⟩
  · subst hra
    refine ⟨?_, ?_, ?_, ?_⟩ <;>
      simp [passwordResetConfirmPost, passwordResetConfirmSerializerValid,
        validate_password_reset_token, cacheTier, invalidTokenResp,
        hr, hu, hue, storeGet_delete, storeGet_of_not_hasKey _ _ _ hc]
  · refine ⟨?_, ?_, ?_, ?_⟩ <;>
      cases redis_available <;>
        simp [passwordResetConfirmPost, passwordResetConfirmSerializerValid,
          validate_password_reset_token, cacheTier, invalidTokenResp,
          hc, hu, hue, storeGet_delete, storeGet_of_not_hasKey _ _ _ hr]

/-- Witness for C9: a token in the primary tier for subject id 7 with no
such user. -/
theorem c9_orphan_subject_generic_rejection_witness :
    (passwordResetConfirmPost true ⟨[(resetKey "tok", "7", 600)], []⟩ "tok" "npw" "npw" 0
        false false false false (fun _ => false)).1 = invalidTokenResp ∧
    storeGet (passwordResetConfirmPost true ⟨[(resetKey "tok", "7", 600)], []⟩ "tok" "npw"
        "npw" 0 false false false false (fun _ => false)).2.1.redis (resetKey "tok") 1 =
      none ∧
    storeGet (passwordResetConfirmPost true ⟨[(resetKey "tok", "7", 600)], []⟩ "tok" "npw"
        "npw" 0 false false false false (fun _ => false)).2.1.cache (resetKey "tok") 1 =
      none ∧
    (passwordResetConfirmPost true
        (passwordResetConfirmPost true ⟨[(resetKey "tok", "7", 600)], []⟩ "tok" "npw"
          "npw" 0 false false false false (fun _ => false)).2.1
        "tok" "npw" "npw" 1 false false false false (fun _ => false)).1 =
      invalidTokenResp :=
  c9_orphan_subject_generic_rejection true ⟨[(resetKey "tok", "7", 600)], []⟩ "tok" "7"
    "npw" 0 1 (fun _ => false) (by decide) rfl
    (Or.inl ⟨rfl, by decide, by decide⟩)

/-- C10: `redis_available` is fixed once by the import block; while it is
false, issue and redeem go only through the secondary tier — the primary
tier is neither read nor written and the outcome is independent of the
primary tier's contents, even if Redis has recovered — and while it is
true, issue attempts the primary tier first (a successful primary write
leaves the secondary untouched). -/
theorem c10_availability_flag_fixed (st : SysState) (user_id token : String) (now : Nat)
    (r' : Store) (redisSetRaises cacheSetRaises : Bool)
    (cacheGetRaises cacheDeleteRaises : Bool) :
    (initRedisAvailable true = false ∧ initRedisAvailable false = true) ∧
    (∀ redisGetRaises redisDeleteRaises,
      validate_password_reset_token false st token now redisGetRaises redisDeleteRaises
          cacheGetRaises cacheDeleteRaises =
        cacheTier st (resetKey token) now cacheGetRaises cacheDeleteRaises) ∧
    ((cacheTier st (resetKey token) now cacheGetRaises cacheDeleteRaises).2.redis =
      st.redis) ∧
    ((cacheTier ⟨r', st.cache⟩ (resetKey token) now cacheGetRaises cacheDeleteRaises).1 =
      (cacheTier st (resetKey token) now cacheGetRaises cacheDeleteRaises).1 ∧
     (cacheTier ⟨r', st.cache⟩ (resetKey token) now cacheGetRaises
        cacheDeleteRaises).2.cache =
      (cacheTier st (resetKey token) now cacheGetRaises cacheDeleteRaises).2.cache) ∧
    ((generate_password_reset_token false st user_id token now redisSetRaises
        cacheSetRaises).2.redis = st.redis) ∧
    ((generate_password_reset_token false ⟨r', st.cache⟩ user_id token now redisSetRaises
        cacheSetRaises).1 =
      (generate_password_reset_token false st user_id token now redisSetRaises
        cacheSetRaises).1 ∧
     (generate_password_reset_token false ⟨r', st.cache⟩ user_id token now redisSetRaises
        cacheSetRaises).2.cache =
      (generate_password_reset_token false st user_id token now redisSetRaises
        cacheSetRaises).2.cache) ∧
    ((generate_password_reset_token true st user_id token now false cacheSetRaises).2 =
      { st with redis := storeSet st.redis (resetKey token) user_id (now + 600) }) := by
  refine ⟨⟨rfl, rfl⟩, fun _ _ => rfl, ?_, ?_, ?_, ?_, rfl⟩
  · cases cacheGetRaises with
    | true => rfl
    | false =>
      cases hc : storeGet st.cache (resetKey token) now with
      | none => simp [cacheTier, hc]
      | some v =>
        by_cases hv : v = "" <;> cases cacheDeleteRaises <;> simp [cacheTier, hc, hv]
  · cases cacheGetRaises with
    | true => exact ⟨rfl, rfl⟩
    | false =>
      cases hc : storeGet st.cache (resetKey token) now with
      | none => simp [cacheTier, hc]
      | some v =>
        by_cases hv : v = "" <;> cases cacheDeleteRaises <;> simp [cacheTier, hc, hv]
  · cases cacheSetRaises <;> simp [generate_password_reset_token]
  · cases cacheSetRaises <;> simp [generate_password_reset_token]

end UserAuth
